import Mathlib

/-!
Verification of the ResiliNet Harness orchestration core.

Shallow embedding of the python sources:
  src/resilinet_harness/impairment.py  (NetworkConditioner)
  src/resilinet_harness/runner.py      (CLI profile table)
  src/resilinet_harness/validation.py  (run_in_ns, ProtocolAssertion)
  src/resilinet_harness/topology.py    (NamespaceManager)

External effects (netlink calls, process spawning, packet capture) are
modelled by explicit oracle parameters: a boolean for whether an interface
exists, a predicate for which per-item removals fail, an outcome value for
what the spawned unit reports.  The control flow and data flow of each
python function is translated line by line.
-/

namespace ResiliNet

/- ### Impairment model — src/resilinet_harness/impairment.py -/

/-- The value of the `latency` key of a profile dict: either a plain string
such as "100ms", or a mapping with optional keys `delay` and `jitter`
(impairment.py lines 33-36). -/
inductive LatencyVal
  | str (s : String)
  | dict (delay jitter : Option String)
deriving DecidableEq

/-- An impairment profile dict as consumed by `apply_profile`.  The python
code reads only the keys `latency`, `loss` and `reorder`; a top-level
`jitter` key (which runner.py passes for its latency profile) is carried
here so that its being ignored by the translation is visible. -/
structure Profile where
  latency : Option LatencyVal := none
  jitter : Option String := none
  loss : Option ℚ := none
  reorder : Option ℚ := none
deriving DecidableEq

/-- The netem option dict built by `apply_profile` (impairment.py 38-61). -/
structure NetemOptions where
  delay : Option String := none
  jitter : Option String := none
  loss : Option ℚ := none
  reorder : Option ℚ := none
deriving DecidableEq

/-- `not netem_options` in python: the dict has no keys. -/
def NetemOptions.isEmpty (o : NetemOptions) : Bool :=
  o.delay.isNone && o.jitter.isNone && o.loss.isNone && o.reorder.isNone

/-- Parsing of the `latency` value (impairment.py 41-47).  The guard
`if latency:` is python truthiness: an absent value, the empty string and
the empty mapping are all falsy and contribute nothing.  A truthy mapping
fills missing `delay`/`jitter` keys with "0ms"; a truthy string becomes
the delay. -/
def latency_fields : Option LatencyVal → Option String × Option String
  | some (LatencyVal.str s) =>
      if s = "" then (none, none) else (some s, none)
  | some (LatencyVal.dict d j) =>
      if d = none ∧ j = none then (none, none)
      else (some (d.getD "0ms"), some (j.getD "0ms"))
  | none => (none, none)

/-- The option dict after the latency / loss / reorder parsing, before the
reorder floor check (impairment.py 38-57). -/
def base_options (p : Profile) : NetemOptions :=
  { delay := (latency_fields p.latency).1
    jitter := (latency_fields p.latency).2
    loss := p.loss
    reorder := p.reorder }

/-- Result of the profile translation: the netem options plus whether the
10ms reorder-floor substitution was logged (the logger.warning at
impairment.py line 61). -/
structure Translation where
  opts : NetemOptions
  floor_logged : Bool
deriving DecidableEq

/-- Full profile translation (impairment.py 38-61): if `reorder` is set and
no `delay` key was produced, a 10ms delay is substituted and the
substitution is logged. -/
def netem_options (p : Profile) : Translation :=
  if p.reorder.isSome ∧ (base_options p).delay = none then
    ⟨{ base_options p with delay := some "10ms" }, true⟩
  else ⟨base_options p, false⟩

/-- Whether the profile itself supplies a delay: a truthy latency string, or
a mapping carrying a `delay` key.  (A jitter-only mapping supplies none.) -/
def Profile.gives_delay (p : Profile) : Bool :=
  match p.latency with
  | some (LatencyVal.str s) => s != ""
  | some (LatencyVal.dict d _) => d.isSome
  | none => false

/-- Observable outcome of one `apply_profile` call. -/
inductive ApplyOutcome
  | skipped
  | applied (floor_logged : Bool)
deriving DecidableEq

/-- `apply_profile` (impairment.py 27-89) acting on the qdisc state of one
interface, modelled as `Option NetemOptions` (none = no netem qdisc).
The empty-options no-op check happens before the interface lookup; a
missing interface raises; otherwise any existing root qdisc is deleted
(errors swallowed) and the new netem qdisc installed. -/
def apply_profile (present : Bool) (p : Profile) (st : Option NetemOptions) :
    Except String (Option NetemOptions × ApplyOutcome) :=
  if (netem_options p).opts.isEmpty then Except.ok (st, ApplyOutcome.skipped)
  else if present then
    Except.ok (some (netem_options p).opts,
      ApplyOutcome.applied (netem_options p).floor_logged)
  else Except.error "Interface not found."

/-- Two successive `apply_profile` calls on the same interface, the second
starting from the state the first one left behind. -/
def apply_twice (p1 p2 : Profile) (st : Option NetemOptions) :
    Except String (Option NetemOptions × ApplyOutcome) :=
  match apply_profile true p1 st with
  | Except.ok (st1, _) => apply_profile true p2 st1
  | Except.error e => Except.error e

/-- `clear_impairments` (impairment.py 91-105): a missing interface returns
early; otherwise `tc del root` removes the qdisc, and the exception raised
when no qdisc exists is swallowed (logged at debug level).  No path
raises. -/
def clear_impairments (present : Bool) (st : Option NetemOptions) :
    Except String (Option NetemOptions) :=
  if present then Except.ok none else Except.ok st

/- ### CLI profile table — src/resilinet_harness/runner.py 81-89 -/

/-- The fixed profile dict the CLI builds for each `--profile` choice.
Note the latency profile places `jitter` as a top-level key. -/
def cli_profile : String → Profile
  | "latency" => { latency := some (LatencyVal.str "100ms"), jitter := some "20ms" }
  | "loss" => { loss := some 5 }
  | "reorder" => { reorder := some 10, latency := some (LatencyVal.str "10ms") }
  | _ => {}

/- ### Cross-context execution — src/resilinet_harness/validation.py 11-64 -/

/-- What the target callable does when invoked inside the child. -/
inductive JobOutcome
  | raises (msg : String)
  | value (v : String)
deriving DecidableEq

/-- `_target_wrapper` (validation.py 11-35), as the message the child puts
on the queue: the namespace-existence check runs first, inside the child;
if the namespace is missing the job is never invoked. -/
def target_wrapper (ns_name : String) (ns_exists : Bool) (job : JobOutcome) :
    Option (Bool × String) :=
  if ns_exists = false then
    some (false, "Namespace " ++ ns_name ++ " not found")
  else
    match job with
    | JobOutcome.raises m => some (false, m)
    | JobOutcome.value v => some (true, v)

/-- One call of `run_in_ns`: whether a child process was spawned, and the
value returned / exception raised. -/
structure RunInNsCall where
  spawned : Bool
  result : Except String String

/-- `run_in_ns` (validation.py 37-64): a process is spawned and joined
unconditionally; `child_died` models the unit terminating without putting
anything on the queue, in which case the empty queue is reported as an
error; a `(False, reason)` message is re-raised with the namespace name;
a `(True, value)` message is returned. -/
def run_in_ns (ns_name : String) (child_died : Bool) (ns_exists : Bool)
    (job : JobOutcome) : RunInNsCall :=
  let queued := if child_died then none else target_wrapper ns_name ns_exists job
  { spawned := true
    result :=
      match queued with
      | none => Except.error "Process died without returning result"
      | some (false, r) => Except.error ("Error in namespace " ++ ns_name ++ ": " ++ r)
      | some (true, r) => Except.ok r }

/- ### Protocol assertions — src/resilinet_harness/validation.py 88-179 -/

/-- Synchronisation-relevant events of an assertion run, in program order. -/
inductive Event
  | spawn_capture
  | wait_readiness
  | fixed_sleep (secs : ℕ)
  | send_stimulus
  | join_capture
  | kill_capture
deriving DecidableEq

/-- What the sniffer child reports: it died (empty queue), it errored, or
it captured `n` packets. -/
inductive SnifferOutcome
  | died
  | err (msg : String)
  | captured (n : ℕ)
deriving DecidableEq

/-- Evaluation of the sniffer queue in `test_tcp_handshake`
(validation.py 129-140): empty queue, error and zero packets all raise. -/
def handshake_capture_result : SnifferOutcome → Except String Bool
  | SnifferOutcome.died =>
      Except.error "Sniffer on Node B failed to capture packet or timeout."
  | SnifferOutcome.err m => Except.error ("Sniffer error on Node B: " ++ m)
  | SnifferOutcome.captured 0 =>
      Except.error "TCP SYN packet not received at Node B"
  | SnifferOutcome.captured (_ + 1) => Except.ok true

/-- Evaluation of the sniffer queue in `test_mtu_fragmentation`
(validation.py 165-176): fewer than 2 packets raises. -/
def fragmentation_capture_result : SnifferOutcome → Except String Bool
  | SnifferOutcome.died => Except.error "Sniffer on Node B failed."
  | SnifferOutcome.err m => Except.error ("Sniffer error: " ++ m)
  | SnifferOutcome.captured n =>
      if n < 2 then Except.error "Expected fragmentation (at least 2 packets)"
      else Except.ok true

/-- `test_tcp_handshake` (validation.py 93-140): spawn the sniffer process
in node B, `time.sleep(1)`, send the SYN via `run_in_ns` into node A
(terminating the sniffer if the stimulus raises), then join and evaluate.
Returns the ordered event trace and the outcome. -/
def test_tcp_handshake (stimulus_fails : Bool) (sniffer : SnifferOutcome) :
    List Event × Except String Bool :=
  if stimulus_fails then
    ([Event.spawn_capture, Event.fixed_sleep 1, Event.send_stimulus,
      Event.kill_capture],
     Except.error "stimulus job failed in node A")
  else
    ([Event.spawn_capture, Event.fixed_sleep 1, Event.send_stimulus,
      Event.join_capture],
     handshake_capture_result sniffer)

/-- `test_mtu_fragmentation` (validation.py 142-179): same shape, but the
stimulus call is not wrapped, so a stimulus failure propagates before the
join (and the sniffer is not killed). -/
def test_mtu_fragmentation (stimulus_fails : Bool) (sniffer : SnifferOutcome) :
    List Event × Except String Bool :=
  if stimulus_fails then
    ([Event.spawn_capture, Event.fixed_sleep 1, Event.send_stimulus],
     Except.error "stimulus job failed in node A")
  else
    ([Event.spawn_capture, Event.fixed_sleep 1, Event.send_stimulus,
      Event.join_capture],
     fragmentation_capture_result sniffer)

/-- Checks that every `send_stimulus` in the trace is preceded by a
`wait_readiness` acknowledgment (the flag records whether one was seen). -/
def stimulus_after_readiness : Bool → List Event → Bool
  | _, [] => true
  | seen, Event.send_stimulus :: rest =>
      seen && stimulus_after_readiness seen rest
  | _, Event.wait_readiness :: rest => stimulus_after_readiness true rest
  | seen, _ :: rest => stimulus_after_readiness seen rest

/-- Checks that every `send_stimulus` in the trace is preceded by both a
`spawn_capture` and a `fixed_sleep` event. -/
def stimulus_after_spawn_and_sleep : Bool → Bool → List Event → Bool
  | _, _, [] => true
  | sp, sl, Event.send_stimulus :: rest =>
      sp && sl && stimulus_after_spawn_and_sleep sp sl rest
  | _, sl, Event.spawn_capture :: rest =>
      stimulus_after_spawn_and_sleep true sl rest
  | sp, _, Event.fixed_sleep _ :: rest =>
      stimulus_after_spawn_and_sleep sp true rest
  | sp, sl, _ :: rest => stimulus_after_spawn_and_sleep sp sl rest

/- ### Topology manager — src/resilinet_harness/topology.py -/

/-- The tracking lists of `NamespaceManager` (topology.py 15-16). -/
structure RegistryState where
  created_namespaces : List String
  created_interfaces : List String
deriving DecidableEq

/-- The host resources cleanup acts on: interfaces visible in the default
namespace, and existing network namespaces. -/
structure World where
  ifaces : List String
  nss : List String
deriving DecidableEq

/-- Log entries emitted by `cleanup` (topology.py 99, 113, 115).  Note the
interface loop's `except Exception: pass` emits nothing on error. -/
inductive CleanupLog
  | removed_iface (n : String)
  | removed_ns (n : String)
  | failed_ns (n : String)
deriving DecidableEq

/-- A removal attempted during cleanup. -/
inductive ResKind
  | iface (n : String)
  | ns (n : String)
deriving DecidableEq

/-- One iteration of the interface loop (topology.py 95-101): look the name
up, delete if found; any exception is swallowed by `pass` with no log
entry; success is logged. -/
def cleanup_iface_step (del_fails : String → Bool)
    (acc : World × List CleanupLog) (n : String) : World × List CleanupLog :=
  if n ∈ acc.1.ifaces then
    if del_fails n then acc
    else ({ acc.1 with ifaces := acc.1.ifaces.erase n },
          acc.2 ++ [CleanupLog.removed_iface n])
  else acc

/-- One iteration of the namespace loop (topology.py 103-115):
`netns.remove` raises when the namespace is missing or removal fails, and
the exception is swallowed into a warning log entry. -/
def cleanup_ns_step (remove_fails : String → Bool)
    (acc : World × List CleanupLog) (n : String) : World × List CleanupLog :=
  if remove_fails n ∨ n ∉ acc.1.nss then
    (acc.1, acc.2 ++ [CleanupLog.failed_ns n])
  else ({ acc.1 with nss := acc.1.nss.erase n },
        acc.2 ++ [CleanupLog.removed_ns n])

/-- Everything observable about one `cleanup` call. -/
structure CleanupOut where
  registry : RegistryState
  world : World
  log : List CleanupLog
  attempts : List ResKind
deriving DecidableEq

/-- `cleanup` (topology.py 89-119): walk the registered interfaces, then
the registered namespaces, swallowing per-item errors, then reset both
tracking lists to empty.  `attempts` records the removal attempts in
order. -/
def cleanup (del_fails remove_fails : String → Bool) (st : RegistryState)
    (w : World) : Except String CleanupOut :=
  let r1 := st.created_interfaces.foldl
    (fun acc n => cleanup_iface_step del_fails acc n) (w, ([] : List CleanupLog))
  let r2 := st.created_namespaces.foldl
    (fun acc n => cleanup_ns_step remove_fails acc n) r1
  Except.ok
    { registry := { created_namespaces := [], created_interfaces := [] }
      world := r2.1
      log := r2.2
      attempts := st.created_interfaces.map ResKind.iface
                  ++ st.created_namespaces.map ResKind.ns }

/-- Interface-name derivation of `link_nodes` (topology.py 49-50): the node
name truncated to its last 4 characters. -/
def veth_name (node : String) : String := "veth-" ++ node.takeRight 4

/-- The steps of `link_nodes` at which a netlink call can fail
(topology.py 52-81). -/
inductive LinkStep
  | add_link | lookup_a | lookup_b | move_a | move_b | config_a | config_b
deriving DecidableEq

/-- Observable outcome of one `link_nodes` call: interfaces actually in
existence, interfaces appended to `created_interfaces`, and whether the
call raised. -/
structure LinkOutcome where
  created : List String
  created_interfaces : List String
  error : Bool
deriving DecidableEq

/-- `link_nodes` (topology.py 38-87): the veth `add` creates BOTH endpoint
interfaces at once, after which only `if_a_name` is appended to
`created_interfaces` (line 56); every later failure is logged and
re-raised with the registry unchanged. -/
def link_nodes (node_a node_b : String) (fail_at : Option LinkStep) :
    LinkOutcome :=
  if fail_at = some LinkStep.add_link then
    { created := [], created_interfaces := [], error := true }
  else
    { created := [veth_name node_a, veth_name node_b]
      created_interfaces := [veth_name node_a]
      error := fail_at.isSome }

/- ### Claim theorems -/

/-- C1 counterexample: the claim says stimulus is never dispatched before
the capture unit has acknowledged readiness, but on the successful paths
of both protocol tests the `send_stimulus` event occurs with no
`wait_readiness` event before it (there is none in either trace at all):
the readiness-precedence property is false on the code's traces. -/
theorem C1_counterexample :
    stimulus_after_readiness false
      (test_tcp_handshake false (SnifferOutcome.captured 1)).1 = false
    ∧ stimulus_after_readiness false
      (test_mtu_fragmentation false (SnifferOutcome.captured 2)).1 = false := by
  exact ⟨rfl, rfl⟩

/-- C1 amended: in `test_tcp_handshake` and `test_mtu_fragmentation` the
stimulus job is dispatched into node A only after the capture process for
node B has been started and a fixed 1-second sleep has elapsed; no
readiness acknowledgment event exists in any trace of either test. -/
theorem C1_amended (sf : Bool) (so : SnifferOutcome) :
    stimulus_after_spawn_and_sleep false false (test_tcp_handshake sf so).1 = true
    ∧ stimulus_after_spawn_and_sleep false false (test_mtu_fragmentation sf so).1 = true
    ∧ (test_tcp_handshake sf so).1.contains Event.wait_readiness = false
    ∧ (test_mtu_fragmentation sf so).1.contains Event.wait_readiness = false := by
  cases sf <;> exact ⟨rfl, rfl, rfl, rfl⟩

/-- C2: every call of `run_in_ns` produces exactly one result — either the
job's value or an error with a diagnostic reason — and in particular when
the spawned unit terminates without reporting a result the call returns
the error "Process died without returning result" rather than hanging. -/
theorem C2_run_in_ns_exactly_one_result (ns_name : String)
    (child_died ns_exists : Bool) (job : JobOutcome) :
    ((∃ v, (run_in_ns ns_name child_died ns_exists job).result = Except.ok v)
      ∨ (∃ m, (run_in_ns ns_name child_died ns_exists job).result = Except.error m))
    ∧ (run_in_ns ns_name true ns_exists job).result
        = Except.error "Process died without returning result" := by
  refine ⟨?_, rfl⟩
  cases h : (run_in_ns ns_name child_died ns_exists job).result with
  | ok v => exact Or.inl ⟨v, rfl⟩
  | error m => exact Or.inr ⟨m, rfl⟩

/-- C3 counterexample: the claim says every per-item removal error is
swallowed into a log entry, but the interface loop swallows errors with a
bare `pass`: here the registered, existing interface "veth-a" fails to
delete, the call still succeeds, the interface survives in the world —
and the log is empty, with no entry recording the error. -/
theorem C3_counterexample :
    cleanup (fun n => n == "veth-a") (fun _ => false)
      { created_namespaces := [], created_interfaces := ["veth-a"] }
      { ifaces := ["veth-a"], nss := [] }
      = Except.ok
          { registry := { created_namespaces := [], created_interfaces := [] }
            world := { ifaces := ["veth-a"], nss := [] }
            log := []
            attempts := [ResKind.iface "veth-a"] } := by
  rfl

/-- C3 amended: `cleanup` attempts removal of every registered interface
and then every registered namespace, in that order, swallows every
per-item removal error and never raises past the call (interface removal
errors leave no log entry); calling it twice in a row produces no error
and leaves the registry empty after each call — for every registry,
world, and per-item failure oracle. -/
theorem C3_amended (del_fails remove_fails : String → Bool)
    (st : RegistryState) (w : World) :
    ∃ out, cleanup del_fails remove_fails st w = Except.ok out
      ∧ out.registry.created_interfaces = []
      ∧ out.registry.created_namespaces = []
      ∧ out.attempts = st.created_interfaces.map ResKind.iface
            ++ st.created_namespaces.map ResKind.ns
      ∧ ∃ out2, cleanup del_fails remove_fails out.registry out.world
            = Except.ok out2
          ∧ out2.registry.created_interfaces = []
          ∧ out2.registry.created_namespaces = []
          ∧ out2.attempts = [] := by
  exact ⟨_, rfl, rfl, rfl, rfl, _, rfl, rfl, rfl, rfl⟩

/-- C4 counterexample: the profile `{latency: {jitter: "20ms"}, reorder: 10}`
gives no delay, and reorder is set, yet the translated configuration's
delay is "0ms" — not the 10ms floor — and no substitution is logged,
because the mapping-shaped latency already filled the delay key with the
"0ms" default. -/
theorem C4_counterexample :
    (Profile.gives_delay
      { latency := some (LatencyVal.dict none (some "20ms")), reorder := some 10 }
      = false)
    ∧ (netem_options
        { latency := some (LatencyVal.dict none (some "20ms")), reorder := some 10 }).opts.delay
        = some "0ms"
    ∧ (netem_options
        { latency := some (LatencyVal.dict none (some "20ms")), reorder := some 10 }).floor_logged
        = false := by
  exact ⟨rfl, rfl, rfl⟩

/-- C4 amended: for every profile in which reorder is set and whose latency
field contributes no delay entry at all (latency absent, an empty string,
or an empty mapping), the translated configuration's delay equals the
documented 10ms floor, the reorder percentage is kept, and the
substitution is logged. -/
theorem C4_amended (p : Profile) (r : ℚ) (hr : p.reorder = some r)
    (hl : (latency_fields p.latency).1 = none) :
    (netem_options p).opts.delay = some "10ms"
    ∧ (netem_options p).opts.reorder = some r
    ∧ (netem_options p).floor_logged = true := by
  have hd : (base_options p).delay = none := hl
  refine ⟨?_, ?_, ?_⟩ <;> simp [netem_options, base_options, hr, hl, hd]

/-- C4 amended, witness at the claim's own example `{reorder: 10}`: the
translation is `{reorder: 10, delay: "10ms"}` with the substitution
logged. -/
theorem C4_amended_witness :
    ({ reorder := some 10 } : Profile).reorder = some 10
    ∧ (latency_fields ({ reorder := some 10 } : Profile).latency).1 = none
    ∧ ((netem_options { reorder := some 10 }).opts.delay = some "10ms"
        ∧ (netem_options { reorder := some 10 }).opts.reorder = some 10
        ∧ (netem_options { reorder := some 10 }).floor_logged = true) :=
  ⟨rfl, rfl, C4_amended { reorder := some 10 } 10 rfl rfl⟩

/-- C5: the CLI's latency profile is `{latency: "100ms", jitter: "20ms"}`
with jitter as a top-level key, which `apply_profile` never reads: the
translated configuration is `{delay: "100ms"}` with no jitter (and no
loss or reorder), while the same values passed in the documented
mapping shape do yield the jitter.  The claimed translation
`{delay: "100ms", jitter: "20ms"}` is therefore not what the code
produces for the CLI profile: the runner drops its jitter silently. -/
theorem C5_cli_latency_jitter_dropped :
    cli_profile "latency"
      = { latency := some (LatencyVal.str "100ms"), jitter := some "20ms" }
    ∧ (netem_options (cli_profile "latency")).opts.delay = some "100ms"
    ∧ (netem_options (cli_profile "latency")).opts.jitter = none
    ∧ (netem_options (cli_profile "latency")).opts.loss = none
    ∧ (netem_options (cli_profile "latency")).opts.reorder = none
    ∧ (netem_options
        { latency := some (LatencyVal.dict (some "100ms") (some "20ms")) }).opts
        = { delay := some "100ms", jitter := some "20ms" } := by
  exact ⟨rfl, rfl, rfl, rfl, rfl, rfl⟩

/-- C6: for every interface and every pair of profiles whose translated
configurations are non-empty, applying P1 and then P2 leaves exactly P2's
translated configuration installed, with no residual fields from P1: the
second call replaces whatever qdisc state the first left behind. -/
theorem C6_full_replace (p1 p2 : Profile) (st : Option NetemOptions)
    (h1 : (netem_options p1).opts.isEmpty = false)
    (h2 : (netem_options p2).opts.isEmpty = false) :
    apply_twice p1 p2 st
      = Except.ok (some (netem_options p2).opts,
          ApplyOutcome.applied (netem_options p2).floor_logged) := by
  simp [apply_twice, apply_profile, h1, h2]

/-- C6 witness: the CLI loss profile followed by the CLI reorder profile on
an initially unimpaired interface ends with exactly the reorder profile's
configuration installed. -/
theorem C6_full_replace_witness :
    (netem_options (cli_profile "loss")).opts.isEmpty = false
    ∧ (netem_options (cli_profile "reorder")).opts.isEmpty = false
    ∧ apply_twice (cli_profile "loss") (cli_profile "reorder") none
        = Except.ok (some (netem_options (cli_profile "reorder")).opts,
            ApplyOutcome.applied (netem_options (cli_profile "reorder")).floor_logged) :=
  ⟨rfl, rfl, C6_full_replace (cli_profile "loss") (cli_profile "reorder") none rfl rfl⟩

/-- C7 counterexample: the claim says a call targeting a missing namespace
fails fast without spawning an execution unit, but `run_in_ns` spawns and
joins the child unconditionally — the namespace-existence check lives
inside `_target_wrapper`, i.e. inside the spawned unit.  On a missing
namespace the unit is spawned and the call raises the not-found error the
child reported. -/
theorem C7_counterexample :
    (run_in_ns "ghost" false false (JobOutcome.value "x")).spawned = true
    ∧ (run_in_ns "ghost" false false (JobOutcome.value "x")).result
        = Except.error "Error in namespace ghost: Namespace ghost not found" := by
  exact ⟨rfl, rfl⟩

/-- C7 amended: when the target namespace does not exist, `run_in_ns`
raises an error naming the namespace as not found and the job is never
run (the child reports the failure before invoking the target) — but the
isolated execution unit is spawned regardless; there is no fail-fast
check before spawning. -/
theorem C7_amended (ns_name : String) (job : JobOutcome) :
    (run_in_ns ns_name false false job).spawned = true
    ∧ (run_in_ns ns_name false false job).result
        = Except.error ("Error in namespace " ++ ns_name ++ ": "
            ++ ("Namespace " ++ ns_name ++ " not found")) := by
  exact ⟨rfl, rfl⟩

/-- C8 counterexample: the claim says every interface actually created
before a mid-sequence failure is registered in `created_interfaces`, but
the veth `add` creates both endpoint interfaces while only the first is
registered: when `link_nodes "client" "server"` fails at the second move,
"veth-rver" exists yet is absent from the registry. -/
theorem C8_counterexample :
    (link_nodes "client" "server" (some LinkStep.move_b)).error = true
    ∧ "veth-rver" ∈ (link_nodes "client" "server" (some LinkStep.move_b)).created
    ∧ "veth-rver" ∉ (link_nodes "client" "server" (some LinkStep.move_b)).created_interfaces := by
  refine ⟨rfl, ?_, ?_⟩ <;> decide

/-- C8 amended: for every execution of `link_nodes` that fails after the
veth pair is created, the first endpoint interface (veth- plus the last
four characters of node A's name) is registered in `created_interfaces`
so cleanup can reach the pair through it; the peer endpoint interface is
created but never registered on its own. -/
theorem C8_amended (node_a node_b : String) (fail_at : Option LinkStep)
    (h : fail_at ≠ some LinkStep.add_link) :
    (link_nodes node_a node_b fail_at).created_interfaces = [veth_name node_a]
    ∧ (link_nodes node_a node_b fail_at).created
        = [veth_name node_a, veth_name node_b] := by
  simp [link_nodes, h]

/-- C8 amended, witness: failing at the second endpoint move while linking
"client" and "server" leaves "veth-ient" registered and both endpoint
interfaces created. -/
theorem C8_amended_witness :
    some LinkStep.move_b ≠ some LinkStep.add_link
    ∧ ((link_nodes "client" "server" (some LinkStep.move_b)).created_interfaces
          = [veth_name "client"]
        ∧ (link_nodes "client" "server" (some LinkStep.move_b)).created
          = [veth_name "client", veth_name "server"]) :=
  ⟨by decide, C8_amended "client" "server" (some LinkStep.move_b) (by decide)⟩

/-- C9: `clear_impairments` never raises for any interface state, removes
any active configuration when the interface exists, clearing an interface
with no active configuration succeeds, and clearing is idempotent: the
state a clear produces is a fixed point of clearing. -/
theorem C9_clear_idempotent (present : Bool) (st : Option NetemOptions) :
    (∃ st2, clear_impairments present st = Except.ok st2
        ∧ clear_impairments present st2 = Except.ok st2)
    ∧ clear_impairments present none = Except.ok none
    ∧ clear_impairments true st = Except.ok none := by
  cases present with
  | false => exact ⟨⟨st, rfl, rfl⟩, rfl, rfl⟩
  | true => exact ⟨⟨none, rfl, rfl⟩, rfl, rfl⟩

/-- C10 counterexample: a latency field that is the EMPTY mapping is falsy
in python, so `apply_profile` skips it entirely instead of filling the
missing keys with "0ms"; consequently with reorder also set the delay
becomes the 10ms floor (logged), not "0ms". -/
theorem C10_counterexample :
    (netem_options { latency := some (LatencyVal.dict none none) }).opts.delay = none
    ∧ (netem_options
        { latency := some (LatencyVal.dict none none), reorder := some 10 }).opts.delay
        = some "10ms"
    ∧ (netem_options
        { latency := some (LatencyVal.dict none none), reorder := some 10 }).floor_logged
        = true := by
  exact ⟨rfl, rfl, rfl⟩

/-- C10 amended: for every profile whose latency field is a NON-empty
mapping, the translation fills a missing delay or jitter key with "0ms";
consequently, for every profile combining a non-empty mapping latency
that lacks the delay key with a set reorder value, the translated delay
is "0ms" and the 10ms floor substitution is not applied. -/
theorem C10_amended (p q : Profile) (d j : Option String) (j2 : String) (r : ℚ)
    (hl : p.latency = some (LatencyVal.dict d j)) (hne : ¬(d = none ∧ j = none))
    (hq : q.latency = some (LatencyVal.dict none (some j2)))
    (hqr : q.reorder = some r) :
    ((netem_options p).opts.delay = some (d.getD "0ms")
      ∧ (netem_options p).opts.jitter = some (j.getD "0ms"))
    ∧ ((netem_options q).opts.delay = some "0ms"
      ∧ (netem_options q).opts.reorder = some r
      ∧ (netem_options q).floor_logged = false) := by
  have hbd : (base_options p).delay = some (d.getD "0ms") := by
    simp [base_options, latency_fields, hl, hne]
  have hbj : (base_options p).jitter = some (j.getD "0ms") := by
    simp [base_options, latency_fields, hl, hne]
  have hqd : (base_options q).delay = some "0ms" := by
    simp [base_options, latency_fields, hq]
  have hqro : (base_options q).reorder = some r := by
    simp [base_options, hqr]
  refine ⟨⟨?_, ?_⟩, ?_, ?_, ?_⟩ <;>
    simp [netem_options, hbd, hbj, hqd, hqro]

/-- C10 amended, witness: a delay-and-jitter mapping is passed through, a
jitter-only mapping combined with reorder yields delay "0ms" with no
floor substitution. -/
theorem C10_amended_witness :
    ({ latency := some (LatencyVal.dict (some "1ms") (some "2ms")) } : Profile).latency
      = some (LatencyVal.dict (some "1ms") (some "2ms"))
    ∧ ¬((some "1ms" : Option String) = none ∧ (some "2ms" : Option String) = none)
    ∧ ({ latency := some (LatencyVal.dict none (some "5ms")), reorder := some 10 } : Profile).latency
      = some (LatencyVal.dict none (some "5ms"))
    ∧ ({ latency := some (LatencyVal.dict none (some "5ms")), reorder := some 10 } : Profile).reorder
      = some 10
    ∧ (((netem_options { latency := some (LatencyVal.dict (some "1ms") (some "2ms")) }).opts.delay
          = some ((some "1ms").getD "0ms")
        ∧ (netem_options { latency := some (LatencyVal.dict (some "1ms") (some "2ms")) }).opts.jitter
          = some ((some "2ms").getD "0ms"))
      ∧ ((netem_options
            { latency := some (LatencyVal.dict none (some "5ms")), reorder := some 10 }).opts.delay
          = some "0ms"
        ∧ (netem_options
            { latency := some (LatencyVal.dict none (some "5ms")), reorder := some 10 }).opts.reorder
          = some 10
        ∧ (netem_options
            { latency := some (LatencyVal.dict none (some "5ms")), reorder := some 10 }).floor_logged
          = false)) :=
  ⟨rfl, by decide, rfl, rfl,
    C10_amended { latency := some (LatencyVal.dict (some "1ms") (some "2ms")) }
      { latency := some (LatencyVal.dict none (some "5ms")), reorder := some 10 }
      (some "1ms") (some "2ms") "5ms" 10 rfl (by decide) rfl rfl⟩

end ResiliNet
